import Mathlib

/-!
Shallow embedding of the dawdle-server SSH session gateway
(src/containers.rs, src/ssh/session.rs, src/utils.rs, src/config.rs).

External collaborators (the Docker engine, the argon2 and ssh-key crates,
the user directory, the SSH client) are modelled as oracles: structures of
pure response functions. Every engine interaction is additionally recorded
in an event trace so that theorems can speak about which calls were made
and in which order. Machine integers are Nat with explicit truncation
(Rust u32-to-u16 casts become mod 65536); fallible Rust code returns
Except. A Rust panic (assert!, unwrap, panic!) is a distinguished error
constructor, kept apart from ordinary recoverable errors.
-/

namespace Dawdle

/-- Bytes of a Rust byte slice; each entry is a value below 256. -/
abbrev Bytes := List Nat

/-- russh ChannelId. -/
abbrev ChannelId := Nat

/-- Outcome of running a piece of Rust code: a panic (assert!/unwrap!/panic!)
or an ordinary error value threaded through Result. -/
inductive RtError
  | panic (msg : String)
  | err (msg : String)
deriving DecidableEq, Repr

-- config.rs constants --------------------------------------------------------

def dockerImageStr : String := "ghcr.io/dawdlestudios/container"

def dockerTagStr : String := "latest"

/-- config.rs DOCKER_CONTAINER_PREFIX. -/
def dockerNamePre : String := "dawdle-home-"

-- utils.rs -------------------------------------------------------------------

/-- Rust str::len, the UTF-8 byte length of the string. -/
def rustStrLen (s : String) : Nat := (s.data.map Char.utf8Size).sum

/-- Rust char::is_ascii_lowercase. -/
def isAsciiLowercase (c : Char) : Bool := 97 ≤ c.toNat && c.toNat ≤ 122

/-- Rust char::is_ascii_digit. -/
def isAsciiDigit (c : Char) : Bool := 48 ≤ c.toNat && c.toNat ≤ 57

/-- utils.rs is_valid_username. -/
def is_valid_username (username : String) : Bool :=
  !username.isEmpty && rustStrLen username < 32 &&
    username.data.all (fun c => isAsciiLowercase c || isAsciiDigit c || c == '-')

-- Docker engine model (bollard) ----------------------------------------------

/-- bollard container summary, as used by get_container. -/
structure ContainerSummary where
  names : Option (List String)
  id : Option String
deriving DecidableEq, Repr

/-- bollard exec inspection result, as used by detatch. -/
structure ExecInspect where
  running : Option Bool
  pid : Option Int
  container_id : Option String
deriving DecidableEq, Repr

/-- bollard LogOutput frames coming out of an exec process. -/
inductive LogOutput
  | stdOut (message : Bytes)
  | stdErr (message : Bytes)
  | stdIn (message : Bytes)
  | console (message : Bytes)
deriving DecidableEq, Repr

instance instDecEqExcept {ε α : Type} [DecidableEq ε] [DecidableEq α] :
    DecidableEq (Except ε α) := fun x y =>
  match x, y with
  | .error a, .error b =>
    if h : a = b then .isTrue (h ▸ rfl)
    else .isFalse (fun hh => h (Except.error.inj hh))
  | .ok a, .ok b =>
    if h : a = b then .isTrue (h ▸ rfl)
    else .isFalse (fun hh => h (Except.ok.inj hh))
  | .error _, .ok _ => .isFalse (fun hh => Except.noConfusion hh)
  | .ok _, .error _ => .isFalse (fun hh => Except.noConfusion hh)

/-- The output stream handed back by start_exec: a finite prefix of the
frames (or transport errors) the engine will deliver. -/
abbrev OutStream := List (Except String LogOutput)

/-- bollard CreateContainerOptions plus Config, restricted to the fields
create_container sets. -/
structure ContainerConfig where
  binds : List String
  hostname : String
  image : String
  env : List String
deriving DecidableEq, Repr

/-- bollard CreateExecOptions, restricted to the fields the source sets;
None everywhere is the Default. -/
structure ExecConfig where
  cmd : Option (List String)
  attach_stderr : Option Bool
  attach_stdout : Option Bool
  attach_stdin : Option Bool
  working_dir : Option String
  tty : Option Bool
  env : Option (List String)
deriving DecidableEq, Repr

/-- CreateExecOptions Default::default(). -/
def execConfigDefault : ExecConfig :=
  { cmd := none, attach_stderr := none, attach_stdout := none,
    attach_stdin := none, working_dir := none, tty := none, env := none }

/-- bollard StartExecOptions. -/
structure StartExecOptions where
  detach : Bool
  tty : Bool
  output_capacity : Option Nat
deriving DecidableEq, Repr

/-- The StartExecOptions attach passes: attached, with the pty flag and an
8 KiB output capacity. -/
def startOpts (tty : Bool) : StartExecOptions :=
  { detach := false, tty := tty, output_capacity := some 8192 }

/-- bollard StartExecResults; the attached input handle is identified with
the exec id, the output stream is carried explicitly. -/
inductive StartExecResults
  | attached (output : OutStream)
  | detached
deriving DecidableEq, Repr

/-- The Docker engine (plus the enclosing process environment), modelled as
an oracle of pure response functions. -/
structure DockerEngine where
  /-- std env current_dir, rendered as a path string. -/
  cwd : String
  /-- std fs create_dir_all. -/
  createDirAll : String → Except String Unit
  listContainers : Except String (List ContainerSummary)
  createContainer : String → ContainerConfig → Except String String
  startContainer : String → Except String Unit
  createExec : String → ExecConfig → Except String String
  startExec : String → Option StartExecOptions → Except String StartExecResults
  resizeExec : String → Nat → Nat → Except String Unit
  inspectExec : String → Except String ExecInspect

/-- Observable events of a handler run: engine calls, filesystem calls,
log lines, input-sink lock traffic and bridge-task spawns. -/
inductive Event
  | callListContainers
  | callCreateContainer (name : String) (cfg : ContainerConfig)
  | callStartContainer (id : String)
  | callCreateExec (container : String) (cfg : ExecConfig)
  | callStartExec (id : String) (opts : Option StartExecOptions)
  | callResizeExec (id : String) (width : Nat) (height : Nat)
  | callInspectExec (id : String)
  | fsCreateDirAll (path : String)
  | logError (msg : String)
  | sinkLock (execId : String)
  | sinkWrite (execId : String) (data : Bytes)
  | sinkUnlock (execId : String)
  | spawnBridge (ch : ChannelId) (output : OutStream)
deriving DecidableEq, Repr

/-- Message of the assert!(is_valid_username(user)) panic. -/
def assertMsg : String := "assertion failed: is_valid_username(user)"

namespace Containers

/-- containers.rs Pty: the optional pty spec handed to attach. -/
structure Pty where
  pty_term : Option String
  pty_modes : Option (List (Nat × Nat))
  pty_size : Option (Nat × Nat)
deriving DecidableEq, Repr

/-- containers.rs Attach, minus the raw stream handles: the input sink is
identified by the exec id, the output stream is carried explicitly. -/
structure Attach where
  container_id : String
  id : String
  output : OutStream
deriving DecidableEq, Repr

/-- Containers::resize: proxy to the engine exec-resize, propagating
failure with ?. -/
def resize (eng : DockerEngine) (id : String) (width height : Nat) :
    List Event × Except RtError Unit :=
  match eng.resizeExec id width height with
  | .ok _ => ([.callResizeExec id width height], .ok ())
  | .error e => ([.callResizeExec id width height], .error (.err e))

/-- Containers::detatch (sic): inspect the exec and, when it is still
running, spawn a kill -9 exec inside its container. Every engine failure
is propagated to the caller with ?. -/
def detatch (eng : DockerEngine) (id : String) : List Event × Except RtError Unit :=
  match eng.inspectExec id with
  | .error e => ([.callInspectExec id], .error (.err e))
  | .ok exec =>
    if exec.running.isSome then
      match exec.pid with
      | none => ([.callInspectExec id], .error (.err "no pid"))
      | some pid =>
        match exec.container_id with
        | none => ([.callInspectExec id], .error (.err "no container id"))
        | some cid =>
          let cfg := { execConfigDefault with
                        cmd := some ["/bin/kill", "-9", toString pid] }
          match eng.createExec cid cfg with
          | .error e =>
            ([.callInspectExec id, .callCreateExec cid cfg], .error (.err e))
          | .ok killId =>
            match eng.startExec killId none with
            | .error e =>
              ([.callInspectExec id, .callCreateExec cid cfg,
                .callStartExec killId none], .error (.err e))
            | .ok _ =>
              ([.callInspectExec id, .callCreateExec cid cfg,
                .callStartExec killId none], .ok ())
    else ([.callInspectExec id], .ok ())

/-- The container config built by create_container for a given user. -/
def containerCfg (cwd user : String) : ContainerConfig :=
  { binds := [cwd ++ "/.files/home/" ++ user ++ ":/home/" ++ user ++ ":rw",
              cwd ++ "/.files/bin:/usr/local/dawdle/bin:ro"],
    hostname := "dawdle.space",
    image := dockerImageStr ++ ":" ++ dockerTagStr,
    env := ["DAWDLE_USER=" ++ user] }

/-- Containers::create_container: assert the username is valid, create the
home directory, then ask the engine to create the container; every engine
failure is propagated with ?. -/
def create_container (eng : DockerEngine) (user : String) :
    List Event × Except RtError String :=
  if is_valid_username user then
    let homeDir := eng.cwd ++ "/.files/home/" ++ user
    match eng.createDirAll homeDir with
    | .error e => ([.fsCreateDirAll homeDir], .error (.err e))
    | .ok _ =>
      let name := dockerNamePre ++ user
      let cfg := containerCfg eng.cwd user
      match eng.createContainer name cfg with
      | .error e =>
        ([.fsCreateDirAll homeDir, .callCreateContainer name cfg], .error (.err e))
      | .ok cid =>
        ([.fsCreateDirAll homeDir, .callCreateContainer name cfg], .ok cid)
  else ([], .error (.panic assertMsg))

/-- Containers::get_container: assert validity, list all containers and
find the one whose name list contains the per-user name. -/
def get_container (eng : DockerEngine) (user : String) :
    List Event × Except RtError (Option String) :=
  if is_valid_username user then
    match eng.listContainers with
    | .error e => ([.callListContainers], .error (.err e))
    | .ok containers =>
      let target := "/" ++ dockerNamePre ++ user
      let found := containers.find? (fun c =>
        (c.names.map (fun n => n.contains target)) == some true)
      ([.callListContainers], .ok (found.bind (fun c => c.id)))
  else ([], .error (.panic assertMsg))

/-- The exec config built by attach for a given user and command. -/
def attachExecCfg (user : String) (cmd : List String) (tty : Bool) : ExecConfig :=
  { cmd := some cmd, attach_stderr := some true, attach_stdout := some true,
    attach_stdin := some true, working_dir := some ("/home/" ++ user),
    tty := some tty, env := some ["TERM=xterm-256color"] }

/-- The command vector attach builds: an interactive login shell when no
command was given, otherwise bash -c with a set -e wrapper. -/
def attachCmd (command : String) : List String :=
  if command.isEmpty then ["/bin/zsh", "-l", "-i"]
  else ["/bin/bash", "-c", "set -e; " ++ command]

/-- The tail of Containers::attach once the container id is known (tpre
is the trace accumulated so far): start the container, create and start
the exec process, then resize when a pty size was supplied. Every engine
failure is propagated with ?; a detached start_exec result panics
(expected Attached). -/
def attachStart (eng : DockerEngine) (user : String) (command : Option String)
    (tty : Option Pty) (tpre : List Event) (container_id : String) :
    List Event × Except RtError Attach :=
  let t3 := tpre ++ [Event.callStartContainer container_id]
  match eng.startContainer container_id with
  | .error e => (t3, .error (.err e))
  | .ok _ =>
    let command := command.getD ""
    let cmd := attachCmd command
    let cfg := attachExecCfg user cmd tty.isSome
    let t4 := t3 ++ [Event.callCreateExec container_id cfg]
    match eng.createExec container_id cfg with
    | .error e => (t4, .error (.err e))
    | .ok execId =>
      let opts := startOpts tty.isSome
      let t5 := t4 ++ [Event.callStartExec execId (some opts)]
      match eng.startExec execId (some opts) with
      | .error e => (t5, .error (.err e))
      | .ok .detached => (t5, .error (.panic "expected Attached"))
      | .ok (.attached output) =>
        let done : Attach :=
          { container_id := container_id, id := execId, output := output }
        match tty with
        | none => (t5, .ok done)
        | some t =>
          match t.pty_size with
          | none => (t5, .ok done)
          | some (width, height) =>
            let (t6, r6) := resize eng execId width height
            match r6 with
            | .error e => (t5 ++ t6, .error e)
            | .ok _ => (t5 ++ t6, .ok done)

/-- Containers::attach: assert validity, find or create the container,
then start container and exec through attachStart. -/
def attach (eng : DockerEngine) (user : String) (command : Option String)
    (tty : Option Pty) : List Event × Except RtError Attach :=
  if is_valid_username user then
    let (t1, r1) := get_container eng user
    match r1 with
    | .error e => (t1, .error e)
    | .ok containerOpt =>
      let (t2, r2) := match containerOpt with
        | some c => ([], Except.ok c)
        | none => create_container eng user
      match r2 with
      | .error e => (t1 ++ t2, .error e)
      | .ok container_id => attachStart eng user command tty (t1 ++ t2) container_id
  else ([], .error (.panic assertMsg))

end Containers

-- ssh/session.rs --------------------------------------------------------------

namespace Ssh

/-- The SSH-layer Auth answer (russh server::Auth). -/
inductive Auth
  | accept
  | reject (proceed_with_methods : Option (List String))
deriving DecidableEq, Repr

/-- A russh public key after parsing, kept opaque: equality is what the
offered-key comparison uses. -/
abbrev RusshKey := String

/-- A parsed ssh-key crate public key: its algorithm tag and raw data. -/
structure SshKey where
  isEd25519 : Bool
  data : String
deriving DecidableEq, Repr

/-- Oracle for the external crypto crates (ssh-key, russh-keys, argon2). -/
structure AuthCrypto where
  /-- ssh-key PublicKey::from_openssh. -/
  fromOpenssh : String → Except String SshKey
  /-- ssh-key PublicKey::to_bytes. -/
  keyToBytes : SshKey → Except String String
  /-- russh-keys parse_public_key. -/
  parsePublicKey : String → Except String RusshKey
  /-- argon2 PasswordHash::new on the stored hash. -/
  passwordHashNew : String → Except String Unit
  /-- argon2 verify_password password hash: errors on mismatch. -/
  verifyPassword : String → String → Except String Unit

/-- state/users.rs User as consumed by the session handler. The
ssh_allow_password field is referenced by session.rs but missing from the
User declarations under src. Modelled from the spec: the
password-auth-allowed flag of the user identity (password flow disabled
unless the identity opts in). -/
structure User where
  password_hash : String
  public_keys : List (String × String)
  role : Option String
  ssh_allow_password : Bool
deriving DecidableEq, Repr

/-- The user directory collaborator: UserState::get by username. -/
abbrev UserDir := String → Except String (Option User)

/-- session.rs Pty: the attachment of a channel, holding the exec id and
the mutex-guarded input sink (identified here by the exec id). -/
structure Pty where
  id : String
deriving DecidableEq, Repr

/-- session.rs SshChannel (the wire handle is not modelled). -/
structure SshChannel where
  pty : Option Pty
  pty_term : Option String
  pty_modes : Option (List (Nat × Nat))
  pty_size : Option (Nat × Nat)
deriving DecidableEq, Repr

/-- session.rs SshUser: the memoized resolved identity. -/
structure SshUser where
  username : String
  user : User
  keys : List RusshKey
deriving DecidableEq, Repr

/-- session.rs SshSession (state and containers handles are passed to the
handlers explicitly). -/
structure SshSession where
  user : Option SshUser
  command : Option String
  term : String
  channels : List (ChannelId × SshChannel)
deriving DecidableEq, Repr

/-- SshSession::new. -/
def newSession : SshSession :=
  { user := none, command := none, term := "xterm", channels := [] }

-- channel-map helpers (DashMap behaviour on the channels field) --------------

/-- DashMap::get on the channel map. -/
def chGet (m : List (ChannelId × SshChannel)) (id : ChannelId) : Option SshChannel :=
  (m.find? (fun p => p.1 == id)).map (fun p => p.2)

/-- DashMap::insert on the channel map (replaces an existing entry). -/
def chInsert (m : List (ChannelId × SshChannel)) (id : ChannelId) (c : SshChannel) :
    List (ChannelId × SshChannel) :=
  match m with
  | [] => [(id, c)]
  | p :: rest => if p.1 == id then (id, c) :: rest else p :: chInsert rest id c

/-- DashMap::alter / mutation through get_mut on the channel map. -/
def chAlter (m : List (ChannelId × SshChannel)) (id : ChannelId)
    (f : SshChannel → SshChannel) : List (ChannelId × SshChannel) :=
  m.map (fun p => if p.1 == id then (p.1, f p.2) else p)

/-- DashMap::remove on the channel map: the removed entry and the rest. -/
def chRemove (m : List (ChannelId × SshChannel)) (id : ChannelId) :
    Option SshChannel × List (ChannelId × SshChannel) :=
  (chGet m id, m.filter (fun p => !(p.1 == id)))

-- auth ------------------------------------------------------------------------

/-- The key-parsing pipeline get_user applies to one stored key string:
parse, reject any non-ed25519 algorithm, re-encode, re-parse for russh. -/
def parseStoredKey (crypto : AuthCrypto) (k : String × String) :
    Except RtError RusshKey :=
  match crypto.fromOpenssh k.2 with
  | .error e => .error (.err ("failed to parse public key: " ++ e))
  | .ok key =>
    if key.isEd25519 then
      match crypto.keyToBytes key with
      | .error e => .error (.err e)
      | .ok b =>
        match crypto.parsePublicKey b with
        | .error e => .error (.err e)
        | .ok pk => .ok pk
    else .error (.err "only ed25519 keys are supported")

/-- collect over the stored keys, stopping at the first failure. -/
def parseStoredKeys (crypto : AuthCrypto) :
    List (String × String) → Except RtError (List RusshKey)
  | [] => .ok []
  | k :: rest =>
    match parseStoredKey crypto k with
    | .error e => .error e
    | .ok pk =>
      match parseStoredKeys crypto rest with
      | .error e => .error e
      | .ok pks => .ok (pk :: pks)

/-- SshSession::get_user: memoized identity resolution. A second lookup
under a different username is a hard failure; an unknown username is a
handler-level error (bail). -/
def get_user (crypto : AuthCrypto) (dir : UserDir) (s : SshSession)
    (username : String) : Except RtError (SshSession × SshUser) :=
  match s.user with
  | some u =>
    if u.username == username then .ok (s, u)
    else .error (.err "user mismatch")
  | none =>
    match dir username with
    | .error e => .error (.err e)
    | .ok none => .error (.err "user not found")
    | .ok (some user) =>
      match parseStoredKeys crypto user.public_keys with
      | .error e => .error e
      | .ok keys =>
        let su : SshUser := { username := username, user := user, keys := keys }
        .ok ({ s with user := some su }, su)

/-- Handler::auth_password: resolve the user (bail on unknown), reject when
password auth is not allowed, then parse the stored hash and verify; both
parse and verify failures are propagated with ? as handler errors. -/
def auth_password (crypto : AuthCrypto) (dir : UserDir) (s : SshSession)
    (user password : String) : Except RtError (SshSession × Auth) :=
  match get_user crypto dir s user with
  | .error e => .error e
  | .ok (s, u) =>
    if !u.user.ssh_allow_password then .ok (s, .reject none)
    else
      match crypto.passwordHashNew u.user.password_hash with
      | .error e => .error (.err e)
      | .ok _ =>
        match crypto.verifyPassword password u.user.password_hash with
        | .error e => .error (.err e)
        | .ok _ => .ok (s, .accept)

/-- Handler::auth_publickey_offered: resolve the user (bail on unknown),
accept when the offered key equals a registered key, otherwise reject the
method. -/
def auth_publickey_offered (crypto : AuthCrypto) (dir : UserDir) (s : SshSession)
    (user : String) (public_key : RusshKey) : Except RtError (SshSession × Auth) :=
  match get_user crypto dir s user with
  | .error e => .error e
  | .ok (s, u) =>
    if u.keys.contains public_key then .ok (s, .accept)
    else .ok (s, .reject none)

/-- Handler::auth_publickey: the signature was already verified by the SSH
layer; accept unconditionally. -/
def auth_publickey (s : SshSession) (_user : String) (_public_key : RusshKey) :
    Except RtError (SshSession × Auth) :=
  .ok (s, .accept)

-- channel events --------------------------------------------------------------

/-- Handler::channel_open_session: register an empty channel, accept. -/
def channel_open_session (s : SshSession) (id : ChannelId) :
    Except RtError (SshSession × Bool) :=
  .ok ({ s with channels := (chInsert s.channels id
          { pty := none, pty_term := none, pty_modes := none, pty_size := none }) },
       true)

/-- Handler::env_request: the body is empty; the pair is ignored. -/
def env_request (s : SshSession) (_channel : ChannelId)
    (_variable_name _variable_value : String) : Except RtError SshSession :=
  .ok s

/-- Handler::pty_request: record term on the session and size/modes/term on
the channel (u32 dimensions truncated to u16). -/
def pty_request (s : SshSession) (channel : ChannelId) (term : String)
    (col_width row_height _pix_width _pix_height : Nat)
    (modes : List (Nat × Nat)) : Except RtError SshSession :=
  let s := { s with term := term }
  .ok { s with channels := (chAlter s.channels channel (fun v =>
          { v with pty_size := some (col_width % 65536, row_height % 65536),
                   pty_modes := some modes,
                   pty_term := some term })) }

/-- Handler::shell_request: require a bound user and a known channel, call
Containers::attach with the session command and no pty spec, store the
attachment in the channel, spawn the bridge task on the output stream,
then resize the new exec to the recorded size or the 80x24 default. -/
def shell_request (eng : DockerEngine) (s : SshSession) (channel_id : ChannelId) :
    List Event × Except RtError SshSession :=
  match s.user with
  | none => ([], .error (.err "user not found"))
  | some user =>
    match chGet s.channels channel_id with
    | none => ([.logError "channel not found"], .error (.err "channel not found"))
    | some _ =>
      let (t1, r1) := Containers.attach eng user.username s.command none
      match r1 with
      | .error e => (t1 ++ [.logError "attach failed"], .error e)
      | .ok att =>
        let s := { s with channels := (chAlter s.channels channel_id
                    (fun ch => { ch with pty := some { id := att.id } })) }
        let t2 := t1 ++ [Event.spawnBridge channel_id att.output]
        match chGet s.channels channel_id with
        | none => (t2, .error (.err "channel not found"))
        | some ch =>
          let (col_width, row_height) := ch.pty_size.getD (80, 24)
          match ch.pty with
          | none => (t2, .ok s)
          | some pty =>
            let (t3, r3) := Containers.resize eng pty.id col_width row_height
            match r3 with
            | .error e => (t2 ++ t3, .error e)
            | .ok _ => (t2 ++ t3, .ok s)

/-- Handler::exec_request: decode the command as UTF-8 (bail otherwise),
remember it on the session prefixed with the echo-disabling directive, and
delegate to shell_request. -/
def exec_request (eng : DockerEngine) (utf8 : Bytes → Option String)
    (s : SshSession) (channel : ChannelId) (data : Bytes) :
    List Event × Except RtError SshSession :=
  match utf8 data with
  | none => ([], .error (.err "command is not valid utf8"))
  | some command =>
    let s := { s with command := some ("stty -echo\n" ++ command) }
    shell_request eng s channel

/-- Handler::data: route a client payload. An unknown channel is a
handler-level error (bail); an unattached channel only logs; an attached
channel takes the sink lock and writes, logging (not failing) on a write
error. The writeRes oracle is the outcome of AsyncWrite::write_all. -/
def dataEvent (writeRes : Bytes → Except String Unit) (s : SshSession)
    (channel_id : ChannelId) (d : Bytes) : List Event × Except RtError SshSession :=
  match chGet s.channels channel_id with
  | none => ([.logError "channel not found"], .error (.err "channel not found"))
  | some channel =>
    match channel.pty with
    | none => ([.logError "no pty for channel"], .ok s)
    | some pty =>
      match writeRes d with
      | .ok _ =>
        ([.sinkLock pty.id, .sinkWrite pty.id d, .sinkUnlock pty.id], .ok s)
      | .error e =>
        ([.sinkLock pty.id, .logError ("failed to write to pty: " ++ e),
          .sinkUnlock pty.id], .ok s)

/-- Handler::window_change_request: an unknown channel is a handler error;
otherwise record the truncated size and, only when attached, forward a
resize (whose failure propagates with ?). -/
def window_change_request (eng : DockerEngine) (s : SshSession)
    (channel_id : ChannelId) (col_width row_height _pix_width _pix_height : Nat) :
    List Event × Except RtError SshSession :=
  match chGet s.channels channel_id with
  | none => ([], .error (.err "channel not found"))
  | some channel =>
    let s := { s with channels := (chAlter s.channels channel_id (fun ch =>
                { ch with pty_size := some (col_width % 65536, row_height % 65536) })) }
    match channel.pty with
    | none => ([], .ok s)
    | some pty =>
      let (t, r) := Containers.resize eng pty.id (col_width % 65536) (row_height % 65536)
      match r with
      | .error e => (t, .error e)
      | .ok _ => (t, .ok s)

/-- Handler::channel_close: remove the channel; when it held an attachment,
call Containers::detatch on its exec id, propagating any failure with ?. -/
def channel_close (eng : DockerEngine) (s : SshSession) (channel_id : ChannelId) :
    List Event × Except RtError SshSession :=
  match chRemove s.channels channel_id with
  | (none, _) => ([], .ok s)
  | (some channel, rest) =>
    let s := { s with channels := rest }
    match channel.pty with
    | none => ([], .ok s)
    | some pty =>
      let (t, r) := Containers.detatch eng pty.id
      match r with
      | .error e => (t, .error e)
      | .ok _ => (t, .ok s)

end Ssh

-- I/O bridge task (the tokio task spawned by shell_request) -------------------

/-- How the bridge task ended: normally, or by a panicking unwrap. -/
inductive TaskEnd
  | finished
  | panicked (msg : String)
deriving DecidableEq, Repr

/-- Observable actions of the bridge task towards the SSH client. The
sendExitStatus constructor exists so that the absence of an exit-status
report is expressible; the source never produces it. -/
inductive BridgeEffect
  | sendData (ch : ChannelId) (message : Bytes)
  | sendEof (ch : ChannelId)
  | sendClose (ch : ChannelId)
  | sendExitStatus (ch : ChannelId) (code : Nat)
  | logErr (msg : String)
deriving DecidableEq, Repr

/-- The try_for_each loop of the bridge task. ok n tells whether the n-th
session-handle operation succeeds. Returns the effects, the next operation
index, the stream error that ended try_for_each (if any), and whether a
failed data send panicked the task. -/
def bridgeLoop (ok : Nat → Bool) (ch : ChannelId) :
    List (Except String LogOutput) → Nat →
    List BridgeEffect × Nat × Option String × Bool
  | [], n => ([], n, none, false)
  | .error e :: _, n => ([], n, some e, false)
  | .ok item :: rest, n =>
    match item with
    | .stdOut msg | .stdErr msg =>
      if ok n then
        let (es, n2, err2, p2) := bridgeLoop ok ch rest (n + 1)
        (.sendData ch msg :: es, n2, err2, p2)
      else ([.logErr "data failed"], n + 1, none, true)
    | .stdIn _ => bridgeLoop ok ch rest n
    | .console _ => bridgeLoop ok ch rest n

/-- The whole bridge task: run the loop; a failed data send has already
panicked the task (unwrap). Otherwise log a stream error if any, then
eof and close on the session handle, each unwrapped. -/
def bridgeRun (ok : Nat → Bool) (ch : ChannelId) (stream : OutStream) :
    List BridgeEffect × TaskEnd :=
  let (es, n, streamErr, panicked) := bridgeLoop ok ch stream 0
  if panicked then (es, .panicked "data failed")
  else
    let es := match streamErr with
      | some e => es ++ [BridgeEffect.logErr ("attach_output reader failed: " ++ e)]
      | none => es
    if ok n then
      if ok (n + 1) then (es ++ [.sendEof ch, .sendClose ch], .finished)
      else (es ++ [.sendEof ch], .panicked "close failed")
    else (es, .panicked "eof failed")

-- concrete fixtures used by witnesses and counterexamples ---------------------

/-- A user record with password auth enabled. -/
def aliceUser : Ssh.User :=
  { password_hash := "hash-alice", public_keys := [], role := none,
    ssh_allow_password := true }

/-- A resolved session identity for alice. -/
def aliceSshUser : Ssh.SshUser :=
  { username := "alice", user := aliceUser, keys := ["russh-key-1"] }

/-- A freshly opened channel. -/
def chanEmpty : Ssh.SshChannel :=
  { pty := none, pty_term := none, pty_modes := none, pty_size := none }

/-- A channel already attached to exec-1. -/
def chanAttached : Ssh.SshChannel :=
  { chanEmpty with pty := some { id := "exec-1" } }

/-- A session with alice bound and channel 0 attached to exec-1. -/
def sessAttached : Ssh.SshSession :=
  { user := some aliceSshUser, command := none, term := "xterm",
    channels := [(0, chanAttached)] }

/-- A session with alice bound and channel 0 opened but not attached. -/
def sessOpened : Ssh.SshSession :=
  { user := some aliceSshUser, command := none, term := "xterm",
    channels := [(0, chanEmpty)] }

/-- An engine where the container for alice already exists and every call
succeeds; new execs get id exec-2 with an empty output stream. -/
def happyEng : DockerEngine :=
  { cwd := "/srv",
    createDirAll := fun _ => .ok (),
    listContainers := .ok [{ names := some ["/dawdle-home-alice"], id := some "cid-1" }],
    createContainer := fun _ _ => .ok "cid-new",
    startContainer := fun _ => .ok (),
    createExec := fun _ _ => .ok "exec-2",
    startExec := fun _ _ => .ok (.attached []),
    resizeExec := fun _ _ _ => .ok (),
    inspectExec := fun _ => .ok { running := some true, pid := some 42,
                                  container_id := some "cid-1" } }

/-- The race engine: the listing is stale (no container visible) and the
creation then fails with a name-collision error because a concurrent
creator won. -/
def collideEng : DockerEngine :=
  { happyEng with
    listContainers := .ok [],
    createContainer := fun _ _ =>
      .error "409 Conflict: container name already in use" }

/-- An engine whose exec inspection fails (transport error at teardown). -/
def downEng : DockerEngine :=
  { happyEng with inspectExec := fun _ => .error "engine unavailable" }

/-- Crypto oracle where parsing succeeds and a password verifies exactly
when it equals the stored hash string. -/
def okCrypto : Ssh.AuthCrypto :=
  { fromOpenssh := fun s => .ok { isEd25519 := true, data := s },
    keyToBytes := fun k => .ok k.data,
    parsePublicKey := fun b => .ok b,
    passwordHashNew := fun _ => .ok (),
    verifyPassword := fun password hash =>
      if password == hash then .ok () else .error "invalid password" }

/-- A user directory with no users at all. -/
def emptyDir : Ssh.UserDir := fun _ => .ok none

/-- A user directory holding exactly alice. -/
def aliceDir : Ssh.UserDir := fun u =>
  if u == "alice" then .ok (some aliceUser) else .ok none

/-- A write oracle whose writes always succeed. -/
def writeOk : Bytes → Except String Unit := fun _ => .ok ()

/-- A UTF-8 decoding oracle: decodes the bytes of "echo hi" and nothing
else (stands in for String::from_utf8 on the inputs used in witnesses). -/
def utf8EchoHi : Bytes → Option String := fun b =>
  if b == [101, 99, 104, 111, 32, 104, 105] then some "echo hi" else none

/-- A session with alice bound and no channel registered at all. -/
def sessNoChannel : Ssh.SshSession :=
  { user := some aliceSshUser, command := none, term := "xterm", channels := [] }

/-- The session after an exec-request for echo hi recorded its command. -/
def execedSession : Ssh.SshSession :=
  { sessOpened with command := some "stty -echo\necho hi" }

/-- The trace of attaching that remembered command on happyEng. -/
def execBashTrace : List Event :=
  [.callListContainers, .callStartContainer "cid-1",
   .callCreateExec "cid-1" (Containers.attachExecCfg "alice"
      ["/bin/bash", "-c", "set -e; stty -echo\necho hi"] false),
   .callStartExec "exec-2" (some (startOpts false)),
   .spawnBridge 0 [], .callResizeExec "exec-2" 80 24]

/-- The session state after that attach completed. -/
def execResultSession : Ssh.SshSession :=
  { user := some aliceSshUser, command := some "stty -echo\necho hi",
    term := "xterm",
    channels := [(0, { pty := some { id := "exec-2" }, pty_term := none,
                       pty_modes := none, pty_size := none })] }

-- predicate helpers used in theorem statements --------------------------------

/-- Modelled from the spec words of the username-validity predicate:
non-empty, fewer than 32 characters, only ASCII lowercase letters, digits
or a dash. Used to compare against the source predicate, which bounds the
UTF-8 byte length instead of the character count. -/
def specValidUsername (u : String) : Bool :=
  !u.isEmpty && u.data.length < 32 &&
    u.data.all (fun c => isAsciiLowercase c || isAsciiDigit c || c == '-')

/-- Recognizer for an exit-status report towards the client. -/
def isExitReport : BridgeEffect → Bool
  | .sendExitStatus _ _ => true
  | _ => false

/-- The effects the bridge loop itself may emit: data frames and log
lines, never eof, close or exit-status. -/
def isLoopEffect : BridgeEffect → Bool
  | .sendData _ _ => true
  | .logErr _ => true
  | _ => false

/-- Recognizer for a create-exec engine call carrying precisely the given
command vector. -/
def createsExecCmd (cmdv : List String) : Event → Bool
  | .callCreateExec _ cfg => cfg.cmd == some cmdv
  | _ => false

-- helper lemmas ----------------------------------------------------------------

theorem chGet_chAlter (m : List (ChannelId × Ssh.SshChannel)) (id : ChannelId)
    (f : Ssh.SshChannel → Ssh.SshChannel) :
    Ssh.chGet (Ssh.chAlter m id f) id = (Ssh.chGet m id).map f := by
  induction m with
  | nil => rfl
  | cons p rest ih =>
    rcases p with ⟨k, c⟩
    by_cases h : (k == id) = true
    · have hk : k = id := by simpa using h
      subst hk
      simp [Ssh.chAlter, Ssh.chGet, List.find?_cons]
    · simp only [Ssh.chAlter, Ssh.chGet, List.map_cons] at ih ⊢
      simp only [if_neg h]
      rw [List.find?_cons, List.find?_cons]
      simp only [h]
      exact ih

-- C1 ---------------------------------------------------------------------------

/-- C1: the claim says errors of the inspect/kill engine calls during
channel-close teardown are logged only and never returned to the caller;
this concrete run shows channel_close propagating the inspect failure of
Containers::detatch to the caller instead. -/
theorem claim1_counterexample :
    Ssh.channel_close downEng sessAttached 0 =
      ([Event.callInspectExec "exec-1"], .error (.err "engine unavailable")) := by
  rfl

/-- C1 (amended): on channel-close of a channel holding an attachment the
channel is removed from the map and detatch is invoked on its exec id, but
any engine failure during this teardown is returned to the caller rather
than being only logged. -/
theorem claim1_amended (eng : DockerEngine) (s : Ssh.SshSession) (ch : ChannelId)
    (c : Ssh.SshChannel) (pty : Ssh.Pty)
    (hget : Ssh.chGet s.channels ch = some c) (hpty : c.pty = some pty) :
    Ssh.channel_close eng s ch =
      ((Containers.detatch eng pty.id).1,
       (Containers.detatch eng pty.id).2.map
         (fun _ => { s with channels := (Ssh.chRemove s.channels ch).2 })) := by
  rcases hd : Containers.detatch eng pty.id with ⟨t, r⟩
  cases r with
  | error e =>
    simp [Ssh.channel_close, Ssh.chRemove, hget, hpty, hd, Except.map]
  | ok u =>
    cases u
    simp [Ssh.channel_close, Ssh.chRemove, hget, hpty, hd, Except.map]

/-- Concrete instantiation of claim1_amended at a healthy engine. -/
theorem claim1_witness :
    Ssh.channel_close happyEng sessAttached 0 =
      ((Containers.detatch happyEng "exec-1").1,
       (Containers.detatch happyEng "exec-1").2.map
         (fun _ => { sessAttached with
                      channels := (Ssh.chRemove sessAttached.channels 0).2 })) :=
  claim1_amended happyEng sessAttached 0 chanAttached { id := "exec-1" } rfl rfl

-- C2 ---------------------------------------------------------------------------

/-- C2: the claim says a name-collision failure of create_container (a
concurrent creator won) is treated as success by attach; this run shows
attach propagating the collision error to the caller instead. -/
theorem claim2_counterexample :
    (Containers.attach collideEng "alice" none none).2 =
      .error (.err "409 Conflict: container name already in use") := by rfl

/-- C2 (amended): when the container listing shows no container and the
subsequent create fails (for example with a name-collision error because a
concurrent creator already made the container), attach propagates that
failure to the caller instead of treating it as success and proceeding
with the existing container. -/
theorem claim2_amended (eng : DockerEngine) (user : String) (cmd : Option String)
    (tty : Option Containers.Pty) (e : String)
    (hvalid : is_valid_username user = true)
    (hlist : eng.listContainers = .ok [])
    (hmk : eng.createDirAll (eng.cwd ++ "/.files/home/" ++ user) = .ok ())
    (hcreate : eng.createContainer (dockerNamePre ++ user)
        (Containers.containerCfg eng.cwd user) = .error e) :
    (Containers.attach eng user cmd tty).2 = .error (.err e) := by
  simp [Containers.attach, Containers.get_container, Containers.create_container,
        hvalid, hlist, hmk, hcreate]

/-- Concrete instantiation of claim2_amended at the racing engine. -/
theorem claim2_witness :
    (Containers.attach collideEng "alice" (some "ls") none).2 =
      .error (.err "409 Conflict: container name already in use") :=
  claim2_amended collideEng "alice" (some "ls") none
    "409 Conflict: container name already in use" (by decide) rfl rfl rfl

-- C5 ---------------------------------------------------------------------------

/-- C5: the claim says a data event for a channel missing from the map is
dropped with a logged warning and does not fail the session; this run
shows the handler failing the session with a channel-not-found error. -/
theorem claim5_counterexample :
    Ssh.dataEvent writeOk sessNoChannel 0 [104] =
      ([.logError "channel not found"], .error (.err "channel not found")) := by rfl

/-- C5 (amended): an attached channel gets the payload written to its
input sink between taking and releasing the sink lock, with the event
succeeding; an open but unattached channel drops the payload with only a
logged error; a channel missing from the map fails the handler instead of
being a logged non-fatal drop. -/
theorem claim5_amended (writeRes : Bytes → Except String Unit) (s : Ssh.SshSession)
    (ch : ChannelId) (d : Bytes) (c : Ssh.SshChannel) (pty : Ssh.Pty) :
    (Ssh.chGet s.channels ch = some c → c.pty = some pty → writeRes d = .ok () →
      Ssh.dataEvent writeRes s ch d =
        ([.sinkLock pty.id, .sinkWrite pty.id d, .sinkUnlock pty.id], .ok s)) ∧
    (Ssh.chGet s.channels ch = some c → c.pty = none →
      Ssh.dataEvent writeRes s ch d = ([.logError "no pty for channel"], .ok s)) ∧
    (Ssh.chGet s.channels ch = none →
      Ssh.dataEvent writeRes s ch d =
        ([.logError "channel not found"], .error (.err "channel not found"))) := by
  refine ⟨fun h1 h2 h3 => ?_, fun h1 h2 => ?_, fun h1 => ?_⟩ <;>
    simp [Ssh.dataEvent, h1, *]

/-- Concrete instantiation of claim5_amended: the attached branch. -/
theorem claim5_witness :
    Ssh.dataEvent writeOk sessAttached 0 [104] =
      ([.sinkLock "exec-1", .sinkWrite "exec-1" [104], .sinkUnlock "exec-1"],
       .ok sessAttached) :=
  (claim5_amended writeOk sessAttached 0 [104] chanAttached { id := "exec-1" }).1
    rfl rfl rfl

-- C6 ---------------------------------------------------------------------------

/-- C6: the claim says every authentication error, including an unknown
user, rejects only the auth method; this run shows a password attempt for
an unknown user producing a handler-level error instead. -/
theorem claim6_counterexample :
    Ssh.auth_password okCrypto emptyDir Ssh.newSession "ghost" "pw" =
      .error (.err "user not found") := by rfl

/-- C6 (amended): only an offered-key mismatch (for a resolved identity)
rejects the specific auth method; an unknown user and a failing password
verification are handler-level errors that terminate the connection. -/
theorem claim6_amended (crypto : Ssh.AuthCrypto) (dir : Ssh.UserDir)
    (s : Ssh.SshSession) (user pw : String) (k : Ssh.RusshKey)
    (u : Ssh.SshUser) (e : String) :
    (s.user = none → dir user = .ok none →
      Ssh.auth_password crypto dir s user pw = .error (.err "user not found") ∧
      Ssh.auth_publickey_offered crypto dir s user k =
        .error (.err "user not found")) ∧
    (s.user = some u → u.username = user → u.user.ssh_allow_password = true →
      crypto.passwordHashNew u.user.password_hash = .ok () →
      crypto.verifyPassword pw u.user.password_hash = .error e →
      Ssh.auth_password crypto dir s user pw = .error (.err e)) ∧
    (s.user = some u → u.username = user → u.keys.contains k = false →
      Ssh.auth_publickey_offered crypto dir s user k = .ok (s, .reject none)) := by
  refine ⟨fun h1 h2 => ⟨?_, ?_⟩, fun h1 h2 h3 h4 h5 => ?_, fun h1 h2 h3 => ?_⟩
  case refine_4 =>
    have h4 : k ∉ u.keys := by simpa using h3
    simp [Ssh.auth_publickey_offered, Ssh.get_user, h1, h2, h4]
  all_goals simp [Ssh.auth_password, Ssh.auth_publickey_offered, Ssh.get_user, *]

/-- Concrete instantiation of claim6_amended: unknown user on both entry
points. -/
theorem claim6_witness :
    Ssh.auth_password okCrypto emptyDir Ssh.newSession "ghost" "pw" =
      .error (.err "user not found") ∧
    Ssh.auth_publickey_offered okCrypto emptyDir Ssh.newSession "ghost" "some-key" =
      .error (.err "user not found") :=
  (claim6_amended okCrypto emptyDir Ssh.newSession "ghost" "pw" "some-key"
    aliceSshUser "e").1 rfl rfl

-- C8 ---------------------------------------------------------------------------

/-- C8: the claim says env-request appends the (name, value) pair to the
channel environment list; but the handler body is empty and the channel
record holds no environment list at all, so the event leaves the whole
session unchanged, as this run shows. -/
theorem claim8_counterexample :
    Ssh.env_request sessOpened 0 "LANG" "C" = .ok sessOpened := by rfl

/-- C8 (amended): env-request ignores the (name, value) pair entirely and
never fails: the channel stores no environment list and the session is
returned unchanged. -/
theorem claim8_amended (s : Ssh.SshSession) (ch : ChannelId) (n v : String) :
    Ssh.env_request s ch n v = .ok s := rfl

-- C3 ---------------------------------------------------------------------------

theorem bridgeLoop_effects (ok : Nat → Bool) (ch : ChannelId)
    (stream : List (Except String LogOutput)) :
    ∀ n, ((bridgeLoop ok ch stream n).1).all isLoopEffect = true := by
  induction stream with
  | nil => intro n; simp [bridgeLoop]
  | cons head rest ih =>
    intro n
    match head with
    | .error e => simp [bridgeLoop]
    | .ok (.stdIn m) => simpa [bridgeLoop] using ih n
    | .ok (.console m) => simpa [bridgeLoop] using ih n
    | .ok (.stdOut m) =>
      by_cases h : ok n = true
      · rcases hb : bridgeLoop ok ch rest (n + 1) with ⟨es, n2, err2, p2⟩
        have h2 := ih (n + 1)
        rw [hb] at h2
        simp [bridgeLoop, h, hb, isLoopEffect]
        exact List.all_eq_true.mp h2
      · simp [bridgeLoop, h, isLoopEffect]
    | .ok (.stdErr m) =>
      by_cases h : ok n = true
      · rcases hb : bridgeLoop ok ch rest (n + 1) with ⟨es, n2, err2, p2⟩
        have h2 := ih (n + 1)
        rw [hb] at h2
        simp [bridgeLoop, h, hb, isLoopEffect]
        exact List.all_eq_true.mp h2
      · simp [bridgeLoop, h, isLoopEffect]

theorem bridgeLoop_panic_last (ok : Nat → Bool) (ch : ChannelId)
    (stream : List (Except String LogOutput)) :
    ∀ n, (bridgeLoop ok ch stream n).2.2.2 = true →
      ((bridgeLoop ok ch stream n).1).getLast? =
        some (.logErr "data failed") := by
  induction stream with
  | nil => intro n h; simp [bridgeLoop] at h
  | cons head rest ih =>
    intro n h
    match head with
    | .error e => simp [bridgeLoop] at h
    | .ok (.stdIn m) =>
      simp only [bridgeLoop] at h ⊢
      exact ih n h
    | .ok (.console m) =>
      simp only [bridgeLoop] at h ⊢
      exact ih n h
    | .ok (.stdOut m) =>
      by_cases hk : ok n = true
      · rcases hb : bridgeLoop ok ch rest (n + 1) with ⟨es, n2, err2, p2⟩
        simp [bridgeLoop, hk, hb] at h ⊢
        have h2 := ih (n + 1)
        rw [hb] at h2
        simp [h] at h2
        cases es with
        | nil => simp at h2
        | cons b t => simpa [List.getLast?_cons_cons] using h2
      · simp [bridgeLoop, hk]
    | .ok (.stdErr m) =>
      by_cases hk : ok n = true
      · rcases hb : bridgeLoop ok ch rest (n + 1) with ⟨es, n2, err2, p2⟩
        simp [bridgeLoop, hk, hb] at h ⊢
        have h2 := ih (n + 1)
        rw [hb] at h2
        simp [h] at h2
        cases es with
        | nil => simp at h2
        | cons b t => simpa [List.getLast?_cons_cons] using h2
      · simp [bridgeLoop, hk]

theorem all_loop_no_exit (l : List BridgeEffect)
    (h : l.all isLoopEffect = true) :
    l.all (fun ef => !isExitReport ef) = true := by
  rw [List.all_eq_true] at h ⊢
  intro ef hm
  have := h ef hm
  cases ef <;> simp_all [isLoopEffect, isExitReport]

theorem all_loop_no_eof (l : List BridgeEffect) (ch : ChannelId)
    (h : l.all isLoopEffect = true) : BridgeEffect.sendEof ch ∉ l := by
  intro hm
  have := List.all_eq_true.mp h _ hm
  simp [isLoopEffect] at this

theorem all_loop_no_close (l : List BridgeEffect) (ch : ChannelId)
    (h : l.all isLoopEffect = true) : BridgeEffect.sendClose ch ∉ l := by
  intro hm
  have := List.all_eq_true.mp h _ hm
  simp [isLoopEffect] at this

theorem all_append_true {α : Type} (p : α → Bool) {l1 l2 : List α}
    (h1 : l1.all p = true) (h2 : l2.all p = true) : (l1 ++ l2).all p = true := by
  rw [List.all_append, h1, h2]; rfl

theorem bridgeRun_tail_cases (ok : Nat → Bool) (ch : ChannelId)
    (es2 : List BridgeEffect) (run : List BridgeEffect × TaskEnd) (n : Nat)
    (hallE : es2.all isLoopEffect = true)
    (hrun : run =
      (if ok n = true then
        (if ok (n + 1) = true then (es2 ++ [.sendEof ch, .sendClose ch], .finished)
         else (es2 ++ [.sendEof ch], .panicked "close failed"))
       else (es2, .panicked "eof failed"))) :
    (run.1.all (fun ef => !isExitReport ef) = true) ∧
    (run.2 = .finished →
      List.isSuffixOf [BridgeEffect.sendEof ch, BridgeEffect.sendClose ch]
        run.1 = true) ∧
    (run.2 = .panicked "data failed" →
      run.1.getLast? = some (.logErr "data failed") ∧
      BridgeEffect.sendEof ch ∉ run.1 ∧
      BridgeEffect.sendClose ch ∉ run.1) := by
  have hx := all_loop_no_exit _ hallE
  by_cases h1 : ok n = true
  · by_cases h2 : ok (n + 1) = true
    · rw [h1, h2] at hrun
      simp only [if_pos rfl] at hrun
      subst hrun
      refine ⟨?_, ?_, ?_⟩
      · exact all_append_true _ hx (by simp [isExitReport])
      · intro _
        simp only [List.isSuffixOf_iff_suffix]
        exact ⟨_, rfl⟩
      · intro hpan; simp at hpan
    · rw [h1] at hrun
      rw [if_neg h2] at hrun
      simp only [if_pos rfl] at hrun
      subst hrun
      refine ⟨?_, ?_, ?_⟩
      · exact all_append_true _ hx (by simp [isExitReport])
      · intro hfin; simp at hfin
      · intro hpan; simp at hpan
  · rw [if_neg h1] at hrun
    subst hrun
    refine ⟨?_, ?_, ?_⟩
    · exact hx
    · intro hfin; simp at hfin
    · intro hpan; simp at hpan

/-- C3: the claim says that on stream end the bridge task requests a fixed
exit-status report and then sends channel-close; this run on an ended
stream shows it sending channel-eof then channel-close with no exit-status
report at all. -/
theorem claim3_counterexample :
    bridgeRun (fun _ => true) 0 [] =
      ([.sendEof 0, .sendClose 0], .finished) ∧
    BridgeEffect.sendExitStatus 0 0 ∉ (bridgeRun (fun _ => true) 0 []).1 := by
  constructor
  · rfl
  · decide

/-- C3 (amended): the bridge task never requests an exit-status report;
when the output stream ends and the terminating sends succeed it sends
channel-eof and then channel-close; and when a channel-data send fails the
task panics at once, with the failure log as its last effect and no
eof or close ever sent. -/
theorem claim3_amended (ok : Nat → Bool) (ch : ChannelId) (stream : OutStream) :
    ((bridgeRun ok ch stream).1.all (fun ef => !isExitReport ef) = true) ∧
    ((bridgeRun ok ch stream).2 = .finished →
      List.isSuffixOf [BridgeEffect.sendEof ch, BridgeEffect.sendClose ch]
        (bridgeRun ok ch stream).1 = true) ∧
    ((bridgeRun ok ch stream).2 = .panicked "data failed" →
      (bridgeRun ok ch stream).1.getLast? = some (.logErr "data failed") ∧
      BridgeEffect.sendEof ch ∉ (bridgeRun ok ch stream).1 ∧
      BridgeEffect.sendClose ch ∉ (bridgeRun ok ch stream).1) := by
  have hall := bridgeLoop_effects ok ch stream 0
  have hlast := bridgeLoop_panic_last ok ch stream 0
  rcases hb : bridgeLoop ok ch stream 0 with ⟨es, n, serr, p⟩
  rw [hb] at hall hlast
  simp only at hall hlast
  cases p with
  | true =>
    have hrun : bridgeRun ok ch stream = (es, .panicked "data failed") := by
      simp [bridgeRun, hb]
    refine ⟨?_, ?_, ?_⟩
    · rw [hrun]; exact all_loop_no_exit es hall
    · rw [hrun]; intro hfin; simp at hfin
    · rw [hrun]; intro _
      exact ⟨hlast rfl, all_loop_no_eof es ch hall, all_loop_no_close es ch hall⟩
  | false =>
    cases serr with
    | none =>
      have hrun : bridgeRun ok ch stream =
          (if ok n = true then
            (if ok (n + 1) = true then (es ++ [.sendEof ch, .sendClose ch], .finished)
             else (es ++ [.sendEof ch], .panicked "close failed"))
           else (es, .panicked "eof failed")) := by
        simp [bridgeRun, hb]
      exact bridgeRun_tail_cases ok ch es _ n hall hrun
    | some e =>
      have hallE : (es ++ [BridgeEffect.logErr
          ("attach_output reader failed: " ++ e)]).all isLoopEffect = true := by
        rw [List.all_append]
        simp [isLoopEffect, hall]
      have hrun : bridgeRun ok ch stream =
          (if ok n = true then
            (if ok (n + 1) = true then
              ((es ++ [BridgeEffect.logErr ("attach_output reader failed: " ++ e)]) ++
                 [.sendEof ch, .sendClose ch], .finished)
             else ((es ++ [BridgeEffect.logErr ("attach_output reader failed: " ++ e)]) ++
                 [.sendEof ch], .panicked "close failed"))
           else (es ++ [BridgeEffect.logErr ("attach_output reader failed: " ++ e)],
                 .panicked "eof failed")) := by
        simp [bridgeRun, hb]
      exact bridgeRun_tail_cases ok ch _ _ n hallE hrun

/-- Concrete instantiation of claim3_amended: the second send fails, the
task panics with the failure log last and neither eof nor close is sent. -/
theorem claim3_witness :
    (bridgeRun (fun n => n == 0) 0
        [.ok (.stdOut [104]), .ok (.stdErr [33])]).1.getLast? =
      some (.logErr "data failed") ∧
    BridgeEffect.sendEof 0 ∉
      (bridgeRun (fun n => n == 0) 0 [.ok (.stdOut [104]), .ok (.stdErr [33])]).1 ∧
    BridgeEffect.sendClose 0 ∉
      (bridgeRun (fun n => n == 0) 0 [.ok (.stdOut [104]), .ok (.stdErr [33])]).1 :=
  (claim3_amended (fun n => n == 0) 0
    [.ok (.stdOut [104]), .ok (.stdErr [33])]).2.2 rfl

-- C4 ---------------------------------------------------------------------------

/-- C4: the claim says a channel's Attachment, once set, is never silently
overwritten by a second shell or exec request; this run shows a second
shell-request on a channel attached to exec-1 succeeding with no rejection
and replacing the attachment with the new exec-2. -/
theorem claim4_counterexample :
    chanAttached.pty = some { id := "exec-1" } ∧
    (Ssh.shell_request happyEng sessAttached 0).2 =
      .ok { sessAttached with
             channels := [(0, { chanAttached with pty := some { id := "exec-2" } })] } := by
  exact ⟨rfl, rfl⟩

/-- C4 (amended): shell_request performs no re-attach check at all:
whenever the user is bound, the channel exists (attached or not) and the
adapter attach plus follow-up resize succeed, the handler silently
overwrites the channel's attachment with the new exec id. -/
theorem claim4_amended (eng : DockerEngine) (s : Ssh.SshSession) (ch : ChannelId)
    (u : Ssh.SshUser) (c : Ssh.SshChannel) (att : Containers.Attach)
    (hu : s.user = some u) (hc : Ssh.chGet s.channels ch = some c)
    (hatt : (Containers.attach eng u.username s.command none).2 = .ok att)
    (hres : eng.resizeExec att.id (c.pty_size.getD (80, 24)).1
        (c.pty_size.getD (80, 24)).2 = .ok ()) :
    (Ssh.shell_request eng s ch).2 =
      .ok { s with channels := (Ssh.chAlter s.channels ch
              (fun v => { v with pty := some { id := att.id } })) } := by
  rcases hA : Containers.attach eng u.username s.command none with ⟨t1, r1⟩
  rw [hA] at hatt
  simp only at hatt
  subst hatt
  simp only [Ssh.shell_request, hu, hc, hA]
  rw [chGet_chAlter, hc]
  simp [Containers.resize, hres]

/-- Concrete instantiation of claim4_amended: overwriting exec-1. -/
theorem claim4_witness :
    (Ssh.shell_request happyEng sessAttached 0).2 =
      .ok { sessAttached with channels := (Ssh.chAlter sessAttached.channels 0
              (fun v => { v with pty := some { id := "exec-2" } })) } :=
  claim4_amended happyEng sessAttached 0 aliceSshUser chanAttached
    { container_id := "cid-1", id := "exec-2", output := [] } rfl rfl rfl rfl

-- C7 ---------------------------------------------------------------------------

/-- C7: a window-change-request on an open, not yet attached channel does
not error and only updates the recorded size; and at attach time the
recorded size, or the 80x24 default when none was recorded, is applied via
a resize engine call on the new exec. -/
theorem claim7_confirmed (eng : DockerEngine) (s : Ssh.SshSession) (ch : ChannelId)
    (c : Ssh.SshChannel) (w h pw ph : Nat) (u : Ssh.SshUser) (att : Containers.Attach)
    (hc : Ssh.chGet s.channels ch = some c) (hnot : c.pty = none) :
    (Ssh.window_change_request eng s ch w h pw ph =
      ([], .ok { s with channels := (Ssh.chAlter s.channels ch (fun v =>
         { v with pty_size := some (w % 65536, h % 65536) })) })) ∧
    (s.user = some u →
     (Containers.attach eng u.username s.command none).2 = .ok att →
      Event.callResizeExec att.id (c.pty_size.getD (80, 24)).1
          (c.pty_size.getD (80, 24)).2 ∈ (Ssh.shell_request eng s ch).1) := by
  constructor
  · simp [Ssh.window_change_request, hc, hnot]
  · intro hu hatt
    rcases hA : Containers.attach eng u.username s.command none with ⟨t1, r1⟩
    rw [hA] at hatt
    simp only at hatt
    subst hatt
    simp only [Ssh.shell_request, hu, hc, hA]
    rw [chGet_chAlter, hc]
    rcases hR : eng.resizeExec att.id (c.pty_size.getD (80, 24)).1
        (c.pty_size.getD (80, 24)).2 with e | v
    · simp [Containers.resize, hR]
    · simp [Containers.resize, hR]

/-- Concrete instantiation of claim7_confirmed: a 120x40 window change on
the opened-but-unattached channel, then the default 80x24 resize at attach
time. -/
theorem claim7_witness :
    (Ssh.window_change_request happyEng sessOpened 0 120 40 0 0 =
      ([], .ok { sessOpened with channels := (Ssh.chAlter sessOpened.channels 0
         (fun v => { v with pty_size := some (120 % 65536, 40 % 65536) })) })) ∧
    (sessOpened.user = some aliceSshUser →
     (Containers.attach happyEng "alice" none none).2 =
        .ok { container_id := "cid-1", id := "exec-2", output := [] } →
      Event.callResizeExec "exec-2" 80 24 ∈ (Ssh.shell_request happyEng sessOpened 0).1) :=
  claim7_confirmed happyEng sessOpened 0 chanEmpty 120 40 0 0 aliceSshUser
    { container_id := "cid-1", id := "exec-2", output := [] } rfl rfl

-- C9 ---------------------------------------------------------------------------

theorem charOk_utf8Size (c : Char)
    (h : (isAsciiLowercase c || isAsciiDigit c || c == '-') = true) :
    c.utf8Size = 1 := by
  have hle : c.toNat ≤ 122 := by
    simp only [Bool.or_eq_true, beq_iff_eq, isAsciiLowercase, isAsciiDigit,
      Bool.and_eq_true, decide_eq_true_eq] at h
    rcases h with (⟨h1a, h1b⟩ | ⟨h2a, h2b⟩) | h3
    · exact h1b
    · exact le_trans h2b (by norm_num)
    · subst h3
      decide
  have hv : c.val ≤ (0x7F : UInt32) := by
    have : c.val.toNat ≤ 127 := le_trans hle (by norm_num)
    exact this
  simp [Char.utf8Size, hv]

theorem sum_utf8Size_of_allOk (l : List Char)
    (h : l.all (fun c => isAsciiLowercase c || isAsciiDigit c || c == '-') = true) :
    (l.map Char.utf8Size).sum = l.length := by
  induction l with
  | nil => rfl
  | cons c t ih =>
    rw [List.all_cons] at h
    simp only [Bool.and_eq_true] at h
    obtain ⟨h1, h2⟩ := h
    simp [charOk_utf8Size c h1, ih h2]
    omega

theorem gc_no_assert (eng : DockerEngine) (user : String)
    (h : is_valid_username user = true) :
    (Containers.get_container eng user).2 ≠ .error (.panic assertMsg) := by
  unfold Containers.get_container
  rw [if_pos h]
  rcases h2 : eng.listContainers with e | cs <;> simp [h2]

theorem cc_no_assert (eng : DockerEngine) (user : String)
    (h : is_valid_username user = true) :
    (Containers.create_container eng user).2 ≠ .error (.panic assertMsg) := by
  unfold Containers.create_container
  rw [if_pos h]
  rcases h2 : eng.createDirAll (eng.cwd ++ "/.files/home/" ++ user) with e | v
  · simp [h2]
  · rcases h3 : eng.createContainer (dockerNamePre ++ user)
        (Containers.containerCfg eng.cwd user) with e | cid <;> simp [h2, h3]

theorem attachStart_no_assert (eng : DockerEngine) (user : String)
    (cmd : Option String) (tty : Option Containers.Pty) (tpre : List Event)
    (cid : String) :
    (Containers.attachStart eng user cmd tty tpre cid).2 ≠
      .error (.panic assertMsg) := by
  unfold Containers.attachStart
  rcases hs : eng.startContainer cid with e | v
  · simp [hs]
  · rcases he : eng.createExec cid (Containers.attachExecCfg user
        (Containers.attachCmd ((cmd.getD ""))) tty.isSome) with e | execId
    · simp [hs, he]
    · rcases hx : eng.startExec execId (some (startOpts tty.isSome)) with e | res
      · simp [hs, he, hx]
      · cases res with
        | detached => simp [hs, he, hx]; decide
        | attached output =>
          cases tty with
          | none => simp at he hx; simp [hs, he, hx]
          | some t =>
            simp at he hx
            cases hps : t.pty_size with
            | none => simp [hs, he, hx, hps]
            | some wh =>
              rcases wh with ⟨w, hgt⟩
              rcases hr : eng.resizeExec execId w hgt with e | v
              · simp [hs, he, hx, hps, Containers.resize, hr]
              · simp [hs, he, hx, hps, Containers.resize, hr]

theorem attach_no_assert (eng : DockerEngine) (user : String) (cmd : Option String)
    (tty : Option Containers.Pty) (h : is_valid_username user = true) :
    (Containers.attach eng user cmd tty).2 ≠ .error (.panic assertMsg) := by
  have hgn := gc_no_assert eng user h
  have hcn := cc_no_assert eng user h
  unfold Containers.attach
  rw [if_pos h]
  rcases hg : Containers.get_container eng user with ⟨t1, r1⟩
  rw [hg] at hgn
  cases r1 with
  | error e => simpa using hgn
  | ok copt =>
    cases copt with
    | some cid =>
      exact attachStart_no_assert eng user cmd tty (t1 ++ []) cid
    | none =>
      rcases hc : Containers.create_container eng user with ⟨t2, r2⟩
      rw [hc] at hcn
      cases r2 with
      | error e => simpa using hcn
      | ok cid =>
        simpa using attachStart_no_assert eng user cmd tty (t1 ++ t2) cid

/-- C9: the source predicate agrees with the spec predicate (non-empty,
fewer than 32 characters, only ASCII lowercase, digits or dash); on every
invalid username get_container, create_container and attach abort with the
assertion panic before any engine call (no events, same outcome for every
engine); and on every valid username that assertion never fires. -/
theorem claim9_confirmed (user : String) (eng : DockerEngine)
    (cmd : Option String) (tty : Option Containers.Pty) :
    (is_valid_username user = specValidUsername user) ∧
    (is_valid_username user = false →
      Containers.get_container eng user = ([], .error (.panic assertMsg)) ∧
      Containers.create_container eng user = ([], .error (.panic assertMsg)) ∧
      Containers.attach eng user cmd tty = ([], .error (.panic assertMsg))) ∧
    (is_valid_username user = true →
      (Containers.get_container eng user).2 ≠ .error (.panic assertMsg) ∧
      (Containers.create_container eng user).2 ≠ .error (.panic assertMsg) ∧
      (Containers.attach eng user cmd tty).2 ≠ .error (.panic assertMsg)) := by
  refine ⟨?_, fun h => ?_, fun h => ?_⟩
  · unfold is_valid_username specValidUsername rustStrLen
    rcases hall : user.data.all
        (fun c => isAsciiLowercase c || isAsciiDigit c || c == '-') with _ | _
    · simp [hall]
    · rw [sum_utf8Size_of_allOk user.data hall]
  · exact ⟨by simp [Containers.get_container, h],
      by simp [Containers.create_container, h],
      by simp [Containers.attach, h]⟩
  · exact ⟨gc_no_assert eng user h, cc_no_assert eng user h,
      attach_no_assert eng user cmd tty h⟩

/-- Concrete instantiation of claim9_confirmed: the uppercase username
Alice is invalid and aborts all three operations before the engine, while
alice is valid and never trips the assertion. -/
theorem claim9_witness :
    Containers.attach happyEng "Alice" none none =
      ([], .error (.panic assertMsg)) ∧
    (Containers.attach happyEng "alice" none none).2 ≠
      .error (.panic assertMsg) :=
  ⟨((claim9_confirmed "Alice" happyEng none none).2.1 (by decide)).2.2,
   ((claim9_confirmed "alice" happyEng none none).2.2 (by decide)).2.2⟩

-- C10 --------------------------------------------------------------------------

theorem some_beq_some {α : Type} [BEq α] (a b : α) :
    ((some a == some b) : Bool) = (a == b) := rfl

theorem resize_trace (eng : DockerEngine) (id : String) (w h : Nat) :
    (Containers.resize eng id w h).1 = [.callResizeExec id w h] := by
  unfold Containers.resize
  rcases eng.resizeExec id w h with e | v <;> rfl

theorem gc_trace_any (eng : DockerEngine) (user : String) (v : List String) :
    (Containers.get_container eng user).1.any (createsExecCmd v) = false := by
  unfold Containers.get_container
  by_cases h : is_valid_username user
  · rw [if_pos h]
    rcases eng.listContainers with e | cs <;> simp [createsExecCmd]
  · rw [if_neg h]
    rfl

theorem cc_trace_any (eng : DockerEngine) (user : String) (v : List String) :
    (Containers.create_container eng user).1.any (createsExecCmd v) = false := by
  unfold Containers.create_container
  by_cases h : is_valid_username user
  · rw [if_pos h]
    rcases hd : eng.createDirAll (eng.cwd ++ "/.files/home/" ++ user) with e | u
    · simp [hd, createsExecCmd]
    · rcases hcc : eng.createContainer (dockerNamePre ++ user)
          (Containers.containerCfg eng.cwd user) with e | cid <;>
        simp [hd, hcc, createsExecCmd]
  · rw [if_neg h]
    rfl

theorem attachExecCfg_cmd (u : String) (c : List String) (t : Bool) :
    (Containers.attachExecCfg u c t).cmd = some c := rfl

theorem attachStart_ok_any (eng : DockerEngine) (user : String)
    (cmd : Option String) (tty : Option Containers.Pty) (tpre : List Event)
    (cid : String) (att : Containers.Attach) (v : List String)
    (h : (Containers.attachStart eng user cmd tty tpre cid).2 = .ok att) :
    (Containers.attachStart eng user cmd tty tpre cid).1.any (createsExecCmd v) =
      (tpre.any (createsExecCmd v) ||
        (Containers.attachCmd (cmd.getD "") == v)) := by
  rcases hs : eng.startContainer cid with e | w
  · unfold Containers.attachStart at h
    simp [hs] at h
  · rcases he : eng.createExec cid (Containers.attachExecCfg user
        (Containers.attachCmd ((cmd.getD ""))) tty.isSome) with e | execId
    · unfold Containers.attachStart at h
      simp [hs, he] at h
    · rcases hx : eng.startExec execId (some (startOpts tty.isSome)) with e | res
      · unfold Containers.attachStart at h
        simp [hs, he, hx] at h
      · cases res with
        | detached =>
          unfold Containers.attachStart at h
          simp [hs, he, hx] at h
        | attached output =>
          cases tty with
          | none =>
            simp only [Option.isSome_none] at he hx
            unfold Containers.attachStart
            simp [hs, he, hx, List.any_append, createsExecCmd,
              attachExecCfg_cmd, some_beq_some]
          | some t =>
            simp only [Option.isSome_some] at he hx
            cases hps : t.pty_size with
            | none =>
              unfold Containers.attachStart
              simp [hs, he, hx, hps, List.any_append, createsExecCmd,
                attachExecCfg_cmd, some_beq_some]
            | some wh =>
              rcases wh with ⟨w2, h2⟩
              rcases hr : eng.resizeExec execId w2 h2 with e | u
              · unfold Containers.attachStart at h
                simp [hs, he, hx, hps, Containers.resize, hr] at h
              · unfold Containers.attachStart
                simp [hs, he, hx, hps, Containers.resize, hr, List.any_append,
                  createsExecCmd, attachExecCfg_cmd, some_beq_some]

theorem attach_ok_any (eng : DockerEngine) (user : String) (cmd : Option String)
    (tty : Option Containers.Pty) (att : Containers.Attach) (v : List String)
    (h : (Containers.attach eng user cmd tty).2 = .ok att) :
    (Containers.attach eng user cmd tty).1.any (createsExecCmd v) =
      (Containers.attachCmd (cmd.getD "") == v) := by
  have hgt := gc_trace_any eng user v
  have hct := cc_trace_any eng user v
  unfold Containers.attach at h ⊢
  by_cases hval : is_valid_username user
  · rw [if_pos hval] at h ⊢
    generalize hg : Containers.get_container eng user = gc at h hgt ⊢
    rcases gc with ⟨t1, r1⟩
    simp only at hgt h ⊢
    cases r1 with
    | error e => simp at h
    | ok copt =>
      cases copt with
      | some cid =>
        simp only at h ⊢
        rw [attachStart_ok_any eng user cmd tty (t1 ++ []) cid att v h]
        simp [List.any_append, hgt]
      | none =>
        generalize hc : Containers.create_container eng user = cc at h hct ⊢
        rcases cc with ⟨t2, r2⟩
        simp only at hct h ⊢
        cases r2 with
        | error e => simp at h
        | ok cid =>
          simp only at h ⊢
          rw [attachStart_ok_any eng user cmd tty (t1 ++ t2) cid att v h]
          simp [List.any_append, hgt, hct]
  · rw [if_neg hval] at h
    simp at h

theorem prefixed_nonempty (c : String) :
    ("stty -echo\n" ++ c).isEmpty = false := by
  rw [Bool.eq_false_iff]
  intro hh
  rw [String.isEmpty_iff] at hh
  have := congrArg String.data hh
  rw [String.data_append] at this
  simp at this

theorem attachCmd_prefixed (c : String) :
    Containers.attachCmd ("stty -echo\n" ++ c) =
      ["/bin/bash", "-c", "set -e; " ++ ("stty -echo\n" ++ c)] := by
  unfold Containers.attachCmd
  rw [prefixed_nonempty c]
  rfl

theorem shell_request_ok_spec (eng : DockerEngine) (s : Ssh.SshSession)
    (ch : ChannelId) (t : List Event) (s2 : Ssh.SshSession) (u : Ssh.SshUser)
    (hu : s.user = some u)
    (h : Ssh.shell_request eng s ch = (t, .ok s2)) :
    s2.command = s.command ∧
    (∃ att, (Containers.attach eng u.username s.command none).2 = .ok att) ∧
    ∀ v, t.any (createsExecCmd v) =
      (Containers.attach eng u.username s.command none).1.any (createsExecCmd v) := by
  unfold Ssh.shell_request at h
  rw [hu] at h
  simp only at h
  cases hc : Ssh.chGet s.channels ch with
  | none => rw [hc] at h; simp at h
  | some c =>
    rw [hc] at h
    generalize hA : Containers.attach eng u.username s.command none = A at h ⊢
    rcases A with ⟨ta, ra⟩
    simp only at h ⊢
    cases ra with
    | error e => simp at h
    | ok att =>
      simp only at h
      rw [chGet_chAlter, hc] at h
      simp only [Option.map_some'] at h
      generalize hR : Containers.resize eng att.id (c.pty_size.getD (80, 24)).1
          (c.pty_size.getD (80, 24)).2 = R at h
      have htr := resize_trace eng att.id (c.pty_size.getD (80, 24)).1
          (c.pty_size.getD (80, 24)).2
      rw [hR] at htr
      rcases R with ⟨tr, rr⟩
      simp only at htr h
      subst htr
      cases rr with
      | error e => simp at h
      | ok w =>
        simp only [Prod.mk.injEq, Except.ok.injEq] at h
        obtain ⟨ht, hsess⟩ := h
        subst ht
        subst hsess
        refine ⟨rfl, ⟨att, rfl⟩, fun v => ?_⟩
        simp [List.any_append, createsExecCmd]

theorem shell_request_ok_command (eng : DockerEngine) (s : Ssh.SshSession)
    (ch : ChannelId) (t : List Event) (s2 : Ssh.SshSession)
    (h : Ssh.shell_request eng s ch = (t, .ok s2)) : s2.command = s.command := by
  cases hu : s.user with
  | none =>
    unfold Ssh.shell_request at h
    rw [hu] at h
    simp at h
  | some u => exact (shell_request_ok_spec eng s ch t s2 u hu h).1

/-- C10: the exec command is stored at session scope and never cleared: a
successful exec-request with command c leaves the session command at the
echo-disabling directive plus c, and any later successful shell-request on
any channel of a session holding that command attaches with a bash -c exec
of the remembered command (never the interactive zsh login shell) and
leaves the command in place. -/
theorem claim10_confirmed (eng : DockerEngine) (utf8 : Bytes → Option String)
    (s r : Ssh.SshSession) (ch ch2 : ChannelId) (d : Bytes) (c : String)
    (t t2 : List Event) (s2 r2 : Ssh.SshSession) (u : Ssh.SshUser) :
    (utf8 d = some c → Ssh.exec_request eng utf8 s ch d = (t, .ok s2) →
      s2.command = some ("stty -echo\n" ++ c)) ∧
    (r.user = some u → r.command = some ("stty -echo\n" ++ c) →
      Ssh.shell_request eng r ch2 = (t2, .ok r2) →
      r2.command = some ("stty -echo\n" ++ c) ∧
      t2.any (createsExecCmd
        ["/bin/bash", "-c", "set -e; " ++ ("stty -echo\n" ++ c)]) = true ∧
      t2.any (createsExecCmd ["/bin/zsh", "-l", "-i"]) = false) := by
  constructor
  · intro h1 h2
    unfold Ssh.exec_request at h2
    rw [h1] at h2
    simp only at h2
    exact shell_request_ok_command eng _ ch t s2 h2
  · intro hu hcmd hsh
    obtain ⟨hpres, ⟨att, hatt⟩, hany⟩ :=
      shell_request_ok_spec eng r ch2 t2 r2 u hu hsh
    refine ⟨by rw [hpres, hcmd], ?_, ?_⟩
    · rw [hany _, attach_ok_any eng u.username r.command none att _ hatt, hcmd]
      simp only [Option.getD_some]
      rw [attachCmd_prefixed]
      simp
    · rw [hany _, attach_ok_any eng u.username r.command none att _ hatt, hcmd]
      simp only [Option.getD_some]
      rw [attachCmd_prefixed]
      rw [beq_eq_false_iff_ne]
      intro hbad
      have hne : ("/bin/bash" : String) ≠ "/bin/zsh" := by decide
      injection hbad with hh _
      exact hne hh

/-- Concrete instantiation of claim10_confirmed: exec-request for echo hi
records the prefixed command at session scope, and the subsequent attach
runs bash -c on it, never the interactive zsh login shell. -/
theorem claim10_witness :
    execResultSession.command = some ("stty -echo\n" ++ "echo hi") ∧
    (execResultSession.command = some ("stty -echo\n" ++ "echo hi") ∧
     execBashTrace.any (createsExecCmd
       ["/bin/bash", "-c", "set -e; " ++ ("stty -echo\n" ++ "echo hi")]) = true ∧
     execBashTrace.any (createsExecCmd ["/bin/zsh", "-l", "-i"]) = false) :=
  ⟨(claim10_confirmed happyEng utf8EchoHi sessOpened execedSession 0 0
      [101, 99, 104, 111, 32, 104, 105] "echo hi" execBashTrace execBashTrace
      execResultSession execResultSession aliceSshUser).1 rfl rfl,
   (claim10_confirmed happyEng utf8EchoHi sessOpened execedSession 0 0
      [101, 99, 104, 111, 32, 104, 105] "echo hi" execBashTrace execBashTrace
      execResultSession execResultSession aliceSshUser).2 rfl rfl rfl⟩

end Dawdle
